import Mathlib

/-!
Verification of the disseminator relay server (src/server.ts).

The server accepts one structured message type on POST /broadcast, validates it
with a zod schema (BroadcastRequestSchema), and fans it out to a configured list
of HTTP endpoints (axios.post) and to every currently open WebSocket subscriber,
answering with aggregated per-channel totals and failure counts.

The embedding below models JSON values, the zod schemas as functions computing
the list of violated field paths, the /broadcast request handler, and the
startup/configuration path, directly from the source.
-/

namespace Disseminator

/-- JSON values as delivered by the body parser (express.json()).  Numbers are
modelled as rationals (JSON numbers are finite decimals); objects are ordered
key/value lists, looked up by first match. -/
inductive Json where
  | null : Json
  | bool : Bool → Json
  | num : Rat → Json
  | str : String → Json
  | arr : List Json → Json
  | obj : List (String × Json) → Json

/-- Character class [0-9a-fA-F]. -/
def isHexDigitChar (c : Char) : Bool :=
  c.isDigit || ('a' ≤ c && c ≤ 'f') || ('A' ≤ c && c ≤ 'F')

/-- Core of the regex ^0x[0-9a-fA-F]*$, on the character list of the string. -/
def hexBody : List Char → Bool
  | '0' :: 'x' :: rest => rest.all isHexDigitChar
  | _ => false

/-- server.ts:9 isHexString = (str) => /^0x[0-9a-fA-F]*$/.test(str) -/
def isHexString (s : String) : Bool := hexBody s.data

/-- server.ts:10 isAddress: hex string of total length 42 (0x + 40 hex digits). -/
def isAddress (s : String) : Bool := isHexString s && s.length == 42

/-- server.ts:11 isHash: hex string of total length 66 (0x + 64 hex digits). -/
def isHash (s : String) : Bool := isHexString s && s.length == 66

/-- server.ts:12 is64ByteHex: hex string of total length 130 (0x + 128 hex digits). -/
def is64ByteHex (s : String) : Bool := isHexString s && s.length == 130

/-- server.ts:13 isEmptyHex = (str) => str === '0x' -/
def isEmptyHex (s : String) : Bool := s == "0x"

/-- Core of the regex ^-?\d+$ on the character list of the string: an optional
leading minus followed by one or more ASCII digits. -/
def numericBody : List Char → Bool
  | [] => false
  | c :: rest =>
      if c = '-' then !rest.isEmpty && rest.all Char.isDigit
      else c.isDigit && rest.all Char.isDigit

/-- server.ts:14 isNumericString = (str) => /^-?\d+$/.test(str) -/
def isNumericString (s : String) : Bool := numericBody s.data

/-- server.ts:15 isNumericOrHexString -/
def isNumericOrHexString (s : String) : Bool := isNumericString s || isHexString s

/-- server.ts:16 UINT32_MAX = 4294967295 -/
def UINT32_MAX : Nat := 4294967295

/-- A violated field path, e.g. ["compact", "mandate", "salt"], as reported in a
ZodIssue's path. -/
abbrev Path := List String

/-- Semantics of z.string().refine(pred): a non-string value aborts with an
invalid-type issue at the field path; a string failing the refinement reports a
custom issue at the same path. -/
def refinedString (pred : String → Bool) (path : Path) (j : Json) : List Path :=
  match j with
  | .str s => if pred s then [] else [path]
  | _ => [path]

/-- Semantics of a bare z.string(). -/
def plainString (path : Path) (j : Json) : List Path :=
  match j with
  | .str _ => []
  | _ => [path]

/-- server.ts:18 numericOrHexSchema -/
def numericOrHexSchema : Path → Json → List Path := refinedString isNumericOrHexString

/-- server.ts:22 addressSchema -/
def addressSchema : Path → Json → List Path := refinedString isAddress

/-- server.ts:26 hashSchema -/
def hashSchema : Path → Json → List Path := refinedString isHash

/-- Semantics of z.number().int().min(lo).max(hi).refine(n => lo <= n && n <= hi):
a non-number aborts with one invalid-type issue; on a number every check runs and
each failed check reports an issue at the field path (zod collects them all; the
trailing refine also runs, duplicating the bounds issue). -/
def boundedIntSchema (lo hi : Rat) (path : Path) (j : Json) : List Path :=
  match j with
  | .num q =>
      (if q.den = 1 then [] else [path]) ++
      (if lo ≤ q then [] else [path]) ++
      (if q ≤ hi then [] else [path]) ++
      (if lo ≤ q ∧ q ≤ hi then [] else [path])
  | _ => [path]

/-- A required key of a z.object: a missing key is an issue at its path (zod
reports invalid_type, received undefined); a present key is validated by the
field schema. -/
def requiredField (kvs : List (String × Json)) (path : Path) (key : String)
    (f : Path → Json → List Path) : List Path :=
  match kvs.lookup key with
  | some v => f (path ++ [key]) v
  | none => [path ++ [key]]

/-- An .optional() key of a z.object: a missing key is fine; a present key is
validated by the field schema. -/
def optionalField (kvs : List (String × Json)) (path : Path) (key : String)
    (f : Path → Json → List Path) : List Path :=
  match kvs.lookup key with
  | some v => f (path ++ [key]) v
  | none => []

/-- server.ts:31-48 MandateSchema.  A non-object value is one issue at the object
path; unknown extra keys are ignored (zod default strip mode). -/
def MandateSchema (path : Path) (j : Json) : List Path :=
  match j with
  | .obj kvs =>
      requiredField kvs path "chainId" (boundedIntSchema 1 (UINT32_MAX : Rat)) ++
      requiredField kvs path "tribunal" addressSchema ++
      requiredField kvs path "recipient" addressSchema ++
      requiredField kvs path "expires" numericOrHexSchema ++
      requiredField kvs path "token" addressSchema ++
      requiredField kvs path "minimumAmount" numericOrHexSchema ++
      requiredField kvs path "baselinePriorityFee" numericOrHexSchema ++
      requiredField kvs path "scalingFactor" numericOrHexSchema ++
      requiredField kvs path "salt" hashSchema
  | _ => [path]

/-- server.ts:50-58 CompactMessageSchema -/
def CompactMessageSchema (path : Path) (j : Json) : List Path :=
  match j with
  | .obj kvs =>
      requiredField kvs path "arbiter" addressSchema ++
      requiredField kvs path "sponsor" addressSchema ++
      requiredField kvs path "nonce" hashSchema ++
      requiredField kvs path "expires" numericOrHexSchema ++
      requiredField kvs path "id" numericOrHexSchema ++
      requiredField kvs path "amount" numericOrHexSchema ++
      requiredField kvs path "mandate" MandateSchema
  | _ => [path]

/-- server.ts:60-79 ContextSchema -/
def ContextSchema (path : Path) (j : Json) : List Path :=
  match j with
  | .obj kvs =>
      requiredField kvs path "dispensation" numericOrHexSchema ++
      requiredField kvs path "dispensationUSD" plainString ++
      requiredField kvs path "spotOutputAmount" numericOrHexSchema ++
      requiredField kvs path "quoteOutputAmountDirect" numericOrHexSchema ++
      requiredField kvs path "quoteOutputAmountNet" numericOrHexSchema ++
      optionalField kvs path "deltaAmount" numericOrHexSchema ++
      optionalField kvs path "slippageBips" (boundedIntSchema 0 10000) ++
      requiredField kvs path "witnessTypeString" plainString ++
      requiredField kvs path "witnessHash" hashSchema ++
      optionalField kvs path "claimHash" hashSchema
  | _ => [path]

/-- server.ts:84-89 sponsorSignature: z.string().refine(str => str === null ||
isEmptyHex(str) || is64ByteHex(str)).nullable().  The nullable wrapper accepts
null before the inner string schema runs; inside the string branch the
str === null disjunct of the refinement can never hold. -/
def sponsorSignatureSchema (path : Path) (j : Json) : List Path :=
  match j with
  | .null => []
  | .str s => if isEmptyHex s || is64ByteHex s then [] else [path]
  | _ => [path]

/-- server.ts:90-94 allocatorSignature: z.string().refine(is64ByteHex). -/
def allocatorSignatureSchema : Path → Json → List Path := refinedString is64ByteHex

/-- server.ts:81-97 BroadcastRequestSchema: the list of violated field paths of a
request body (empty exactly when BroadcastRequestSchema.parse succeeds). -/
def BroadcastRequestSchema (j : Json) : List Path :=
  match j with
  | .obj kvs =>
      requiredField kvs [] "chainId" numericOrHexSchema ++
      requiredField kvs [] "compact" CompactMessageSchema ++
      requiredField kvs [] "sponsorSignature" sponsorSignatureSchema ++
      requiredField kvs [] "allocatorSignature" allocatorSignatureSchema ++
      requiredField kvs [] "context" ContextSchema ++
      optionalField kvs [] "claimHash" hashSchema
  | _ => [[]]

/-- server.ts:192-219 validatePayload middleware: BroadcastRequestSchema.parse
either succeeds (next() runs with req.body untouched - the parse result is
discarded) or the thrown ZodError is caught locally and the request is answered
with 400; nothing propagates to the caller. -/
def validatePayload (body : Json) : Except (List Path) Json :=
  if BroadcastRequestSchema body = [] then Except.ok body
  else Except.error (BroadcastRequestSchema body)

/-- ws readyState values of a WebSocket connection. -/
inductive WsReadyState where
  | CONNECTING | OPEN | CLOSING | CLOSED
deriving DecidableEq, Repr

/-- One WebSocket client in the clients set at the instant of dispatch:
its readyState, and whether the send callback for this dispatch reports an
error (a connection failing during the in-flight send). -/
structure Subscriber where
  readyState : WsReadyState
  sendError : Bool
deriving DecidableEq, Repr

/-- Settlement state of one promise under Promise.allSettled. -/
inductive Settled where
  | fulfilled | rejected
deriving DecidableEq, Repr

/-- Outcome of one outbound HTTP POST at the transport level: either a response
with some status code arrived, or the call failed at the transport level
(network error, DNS failure, timeout) and no response exists. -/
inductive HttpResult where
  | response (status : Nat) : HttpResult
  | transportError : HttpResult
deriving DecidableEq, Repr

/-- Settlement of axios.post(endpoint, body) (server.ts:226): the promise
fulfills iff a response arrived whose status passes the default validateStatus
(200 <= status < 300); it rejects on transport errors and on non-2xx responses
(the call site passes no validateStatus override). -/
def axiosSettles (r : HttpResult) : Bool :=
  match r with
  | .response status => decide (200 ≤ status) && decide (status < 300)
  | .transportError => false

/-- Settlement of one element of httpPromises. -/
def httpOutcome (r : HttpResult) : Settled :=
  if axiosSettles r then .fulfilled else .rejected

/-- Settlement of one element of wsPromises (server.ts:236-245): the send
callback err rejects the promise, otherwise it resolves. -/
def wsOutcome (c : Subscriber) : Settled :=
  if c.sendError then .rejected else .fulfilled

/-- Startup configuration (server.ts:99-102): endpoints list and port. -/
structure Config where
  endpoints : List String
  port : Nat
deriving DecidableEq, Repr

/-- server.ts:234-235: Array.from(clients).filter(client => client.readyState
=== WebSocket.OPEN), the snapshot of open subscribers taken at dispatch. -/
def openClients (clients : List Subscriber) : List Subscriber :=
  clients.filter fun c => c.readyState == WsReadyState.OPEN

/-- server.ts:225-231 httpPromises: one axios.post per configured endpoint; the
network environment net gives each endpoint's transport-level result. -/
def httpSettlements (endpoints : List String) (net : String → HttpResult) : List Settled :=
  endpoints.map fun e => httpOutcome (net e)

/-- server.ts:234-245 wsPromises: one send per open client. -/
def wsSettlements (clients : List Subscriber) : List Settled :=
  (openClients clients).map wsOutcome

/-- server.ts:248 Promise.allSettled([...httpPromises, ...wsPromises]): every
attempt settles and its settlement is collected, in order. -/
def broadcastResults (config : Config) (clients : List Subscriber)
    (net : String → HttpResult) : List Settled :=
  httpSettlements config.endpoints net ++ wsSettlements clients

/-- server.ts:254-260: .filter(result => result.status === 'rejected').length -/
def rejectedCount (rs : List Settled) : Nat :=
  (rs.filter fun r => r == Settled.rejected).length

/-- One channel class of the response: { total, failures }. -/
structure ChannelReport where
  total : Nat
  failures : Nat
deriving DecidableEq, Repr

/-- The results object of the 200 response (server.ts:310-322). -/
structure BroadcastReport where
  http : ChannelReport
  websocket : ChannelReport
deriving DecidableEq, Repr

/-- server.ts:248-322: httpResults = results.slice(0, httpPromises.length) and
wsResults = results.slice(httpPromises.length); count rejections per slice and
report { total, failures } per channel class (totals are httpPromises.length
and wsPromises.length). -/
def aggregateReport (config : Config) (clients : List Subscriber)
    (net : String → HttpResult) : BroadcastReport :=
  { http :=
      { total := (httpSettlements config.endpoints net).length,
        failures := rejectedCount ((broadcastResults config clients net).take
          (httpSettlements config.endpoints net).length) },
    websocket :=
      { total := (wsSettlements clients).length,
        failures := rejectedCount ((broadcastResults config clients net).drop
          (httpSettlements config.endpoints net).length) } }

/-- The observable outcome of one POST /broadcast request: HTTP status, response
body fields, and the payloads actually handed to the outbound channels
(axios.post(endpoint, req.body) and client.send(JSON.stringify(req.body))). -/
structure HandlerOutcome where
  status : Nat
  success : Bool
  error : Option String
  details : List Path
  report : Option BroadcastReport
  httpDeliveries : List (String × Json)
  wsDeliveries : List Json

/-- server.ts:222-322 the /broadcast route behind the validatePayload
middleware: an invalid body is answered 400 by the middleware and the handler
never runs (no dispatch); a valid body is dispatched to every configured
endpoint and every open subscriber, and answered 200 with the aggregated
report regardless of per-channel failures. -/
def handleBroadcast (config : Config) (clients : List Subscriber)
    (net : String → HttpResult) (body : Json) : HandlerOutcome :=
  if BroadcastRequestSchema body = [] then
    { status := 200, success := true, error := none, details := [],
      report := some (aggregateReport config clients net),
      httpDeliveries := config.endpoints.map fun e => (e, body),
      wsDeliveries := (openClients clients).map fun _ => body }
  else
    { status := 400, success := false, error := some "Invalid payload",
      details := BroadcastRequestSchema body, report := none,
      httpDeliveries := [], wsDeliveries := [] }

/-- Environment of one process startup: either config.json could not be read,
or it was read but JSON.parse throws, or it parsed to some JSON value. -/
inductive StartupInput where
  | readError : StartupInput
  | invalidJson : StartupInput
  | parsed (j : Json) : StartupInput

/-- server.ts:139-145 structure validation inside loadConfig: config.endpoints
must be present and an array (an array is always truthy, so the !config.endpoints
guard adds nothing for arrays), and typeof config.port must be 'number'.
Property access on a non-object never yields these, so any non-object parse
result fails. -/
def configStructureOk (j : Json) : Bool :=
  match j with
  | .obj kvs =>
      (match kvs.lookup "endpoints" with
       | some (.arr _) => true
       | _ => false) &&
      (match kvs.lookup "port" with
       | some (.num _) => true
       | _ => false)
  | _ => false

/-- server.ts:132-163 loadConfig.  Every failure - unreadable file, JSON.parse
error, or failed structure validation - ends in the outer catch: the inner
catch rethrows Invalid JSON in config file, which the outer catch converts to
Could not read config file, so loadConfig rejects on every malformed input. -/
def loadConfig (i : StartupInput) : Except String Json :=
  match i with
  | .readError => Except.error "Could not read config file"
  | .invalidJson => Except.error "Could not read config file"
  | .parsed j =>
      if configStructureOk j then Except.ok j
      else Except.error "Could not read config file"

/-- Terminal state of startup: either app.listen was reached with the loaded
config, or initializeServer rejected and its .catch ran process.exit(1)
(server.ts:426-433) before any server was created. -/
inductive StartupOutcome where
  | serving (config : Json) : StartupOutcome
  | exitedBeforeServing : StartupOutcome

/-- server.ts:165-423 initializeServer plus the top-level
initializeServer().catch(... process.exit(1)): loadConfig is awaited first, so
a rejection exits the process before any route or listener exists. -/
def initializeServer (i : StartupInput) : StartupOutcome :=
  match loadConfig i with
  | .ok j => .serving j
  | .error _ => .exitedBeforeServing

theorem hexBody_iff (l : List Char) :
    hexBody l = true ↔ ∃ ds, l = '0' :: 'x' :: ds ∧ ∀ c ∈ ds, isHexDigitChar c = true := by
  constructor
  · intro h
    unfold hexBody at h
    split at h
    · next rest => exact ⟨rest, rfl, by simpa [List.all_eq_true] using h⟩
    · exact absurd h (by simp)
  · rintro ⟨ds, rfl, h⟩
    simpa [hexBody, List.all_eq_true] using h

theorem isHexString_iff (s : String) :
    isHexString s = true ↔ ∃ ds, s.data = '0' :: 'x' :: ds ∧ ∀ c ∈ ds, isHexDigitChar c = true :=
  hexBody_iff s.data

theorem string_length_eq_data (s : String) : s.length = s.data.length := by
  cases s
  rfl

theorem hexLen_iff (s : String) (n k : Nat) (hn : n = k + 2) :
    (isHexString s && s.length == n) = true ↔
    ∃ ds, s.data = '0' :: 'x' :: ds ∧ ds.length = k ∧ ∀ c ∈ ds, isHexDigitChar c = true := by
  rw [Bool.and_eq_true, isHexString_iff, beq_iff_eq, string_length_eq_data]
  constructor
  · rintro ⟨⟨ds, hd, hall⟩, hlen⟩
    rw [hd] at hlen
    simp only [List.length_cons] at hlen
    exact ⟨ds, hd, by omega, hall⟩
  · rintro ⟨ds, hd, hlen, hall⟩
    refine ⟨⟨ds, hd, hall⟩, ?_⟩
    rw [hd]
    simp only [List.length_cons]
    omega

theorem numericBody_minus (rest : List Char) :
    numericBody ('-' :: rest) = (!rest.isEmpty && rest.all Char.isDigit) := by
  simp [numericBody]

theorem numericBody_cons_of_ne (c : Char) (rest : List Char) (hc : c ≠ '-') :
    numericBody (c :: rest) = (c.isDigit && rest.all Char.isDigit) := by
  simp [numericBody, hc]

theorem numericBody_iff (l : List Char) :
    numericBody l = true ↔
    ∃ ds, ds ≠ [] ∧ (∀ c ∈ ds, c.isDigit = true) ∧ (l = ds ∨ l = '-' :: ds) := by
  cases l with
  | nil => simp [numericBody]
  | cons c rest =>
    by_cases hc : c = '-'
    · subst hc
      rw [numericBody_minus, Bool.and_eq_true, List.all_eq_true]
      constructor
      · rintro ⟨h1, h2⟩
        exact ⟨rest, by simpa using h1, h2, Or.inr rfl⟩
      · rintro ⟨ds, hne, hall, hds | hds⟩
        · rw [← hds] at hall
          have := hall '-' (by simp)
          simp at this
        · injection hds with hhead htail
          subst htail
          exact ⟨by simpa using hne, hall⟩
    · rw [numericBody_cons_of_ne c rest hc, Bool.and_eq_true, List.all_eq_true]
      constructor
      · rintro ⟨h1, h2⟩
        refine ⟨c :: rest, by simp, ?_, Or.inl rfl⟩
        intro x hx
        rcases List.mem_cons.mp hx with rfl | hx
        · exact h1
        · exact h2 x hx
      · rintro ⟨ds, hne, hall, hds | hds⟩
        · rw [← hds] at hall
          exact ⟨hall c (by simp), fun x hx => hall x (by simp [hx])⟩
        · injection hds with h1 h2
          exact absurd h1 hc

theorem isNumericString_iff (s : String) :
    isNumericString s = true ↔
    ∃ ds, ds ≠ [] ∧ (∀ c ∈ ds, c.isDigit = true) ∧ (s.data = ds ∨ s.data = '-' :: ds) :=
  numericBody_iff s.data

theorem boundedIntSchema_eq_nil_iff (lo hi : Rat) (p : Path) (j : Json) :
    boundedIntSchema lo hi p j = [] ↔
    ∃ q : Rat, j = .num q ∧ q.den = 1 ∧ lo ≤ q ∧ q ≤ hi := by
  cases j <;> simp [boundedIntSchema]
  exact fun _ h1 h2 => ⟨h1, h2⟩

theorem boundedIntSchema_int_iff (lo hi : Int) (p : Path) (j : Json) :
    boundedIntSchema (lo : Rat) (hi : Rat) p j = [] ↔
    ∃ n : Int, j = .num (n : Rat) ∧ lo ≤ n ∧ n ≤ hi := by
  rw [boundedIntSchema_eq_nil_iff]
  constructor
  · rintro ⟨q, rfl, hden, h1, h2⟩
    have hq : (q.num : Rat) = q := (Rat.den_eq_one_iff q).mp hden
    refine ⟨q.num, by rw [hq], ?_, ?_⟩
    · rw [← hq] at h1; exact_mod_cast h1
    · rw [← hq] at h2; exact_mod_cast h2
  · rintro ⟨n, rfl, h1, h2⟩
    exact ⟨(n : Rat), rfl, Rat.den_intCast n, by exact_mod_cast h1, by exact_mod_cast h2⟩

theorem mem_refinedString_of_ne_nil (pred : String → Bool) (p : Path) (j : Json)
    (h : refinedString pred p j ≠ []) : p ∈ refinedString pred p j := by
  cases j <;> simp_all [refinedString]

theorem mem_plainString_of_ne_nil (p : Path) (j : Json)
    (h : plainString p j ≠ []) : p ∈ plainString p j := by
  cases j <;> simp_all [plainString]

theorem mem_sponsorSignature_of_ne_nil (p : Path) (j : Json)
    (h : sponsorSignatureSchema p j ≠ []) : p ∈ sponsorSignatureSchema p j := by
  cases j <;> simp_all [sponsorSignatureSchema]

theorem mem_boundedInt_of_ne_nil (lo hi : Rat) (p : Path) (j : Json)
    (h : boundedIntSchema lo hi p j ≠ []) : p ∈ boundedIntSchema lo hi p j := by
  cases j <;> simp_all [boundedIntSchema]
  tauto

theorem requiredField_none {kvs : List (String × Json)} {path : Path} {key : String}
    {f : Path → Json → List Path} (h : kvs.lookup key = none) :
    requiredField kvs path key f = [path ++ [key]] := by
  simp [requiredField, h]

theorem requiredField_some {kvs : List (String × Json)} {path : Path} {key : String}
    {f : Path → Json → List Path} {v : Json} (h : kvs.lookup key = some v) :
    requiredField kvs path key f = f (path ++ [key]) v := by
  simp [requiredField, h]

theorem optionalField_none {kvs : List (String × Json)} {path : Path} {key : String}
    {f : Path → Json → List Path} (h : kvs.lookup key = none) :
    optionalField kvs path key f = [] := by
  simp [optionalField, h]

theorem optionalField_some {kvs : List (String × Json)} {path : Path} {key : String}
    {f : Path → Json → List Path} {v : Json} (h : kvs.lookup key = some v) :
    optionalField kvs path key f = f (path ++ [key]) v := by
  simp [optionalField, h]

theorem lookup_cons_ne {β : Type} (k key : String) (v : β) (kvs : List (String × β))
    (h : k ≠ key) : ((k, v) :: kvs).lookup key = kvs.lookup key := by
  have hb : (key == k) = false := beq_eq_false_iff_ne.mpr (Ne.symm h)
  simp [List.lookup, hb]

theorem rejectedCount_cons (r : Settled) (rs : List Settled) :
    rejectedCount (r :: rs) = (if r = Settled.rejected then 1 else 0) + rejectedCount rs := by
  cases r <;> simp [rejectedCount, List.filter_cons] <;> omega

theorem rejectedCount_map {α : Type} (f : α → Settled) (l : List α) :
    rejectedCount (l.map f) = (l.filter fun a => f a == Settled.rejected).length := by
  induction l with
  | nil => rfl
  | cons a rest ih =>
    rw [List.map_cons, rejectedCount_cons, ih, List.filter_cons]
    by_cases h : f a = Settled.rejected <;> simp [h] <;> omega

theorem httpOutcome_beq_rejected (r : HttpResult) :
    (httpOutcome r == Settled.rejected) = !axiosSettles r := by
  unfold httpOutcome
  by_cases h : axiosSettles r <;> simp [h]

theorem wsOutcome_beq_rejected (c : Subscriber) :
    (wsOutcome c == Settled.rejected) = c.sendError := by
  unfold wsOutcome
  by_cases h : c.sendError <;> simp [h]

theorem rejectedCount_httpSettlements (endpoints : List String) (net : String → HttpResult) :
    rejectedCount (httpSettlements endpoints net) =
    (endpoints.filter fun e => !axiosSettles (net e)).length := by
  rw [httpSettlements, rejectedCount_map]
  congr 1
  apply List.filter_congr
  intro e _
  exact httpOutcome_beq_rejected (net e)

theorem rejectedCount_wsSettlements (clients : List Subscriber) :
    rejectedCount (wsSettlements clients) =
    ((openClients clients).filter fun c => c.sendError).length := by
  rw [wsSettlements, rejectedCount_map]
  congr 1
  apply List.filter_congr
  intro c _
  exact wsOutcome_beq_rejected c

theorem aggregateReport_eq (config : Config) (clients : List Subscriber)
    (net : String → HttpResult) :
    aggregateReport config clients net =
    { http := { total := config.endpoints.length,
                failures := (config.endpoints.filter fun e => !axiosSettles (net e)).length },
      websocket := { total := (openClients clients).length,
                     failures := ((openClients clients).filter fun c => c.sendError).length } } := by
  unfold aggregateReport broadcastResults
  rw [List.take_left, List.drop_left]
  rw [rejectedCount_httpSettlements, rejectedCount_wsSettlements]
  simp [httpSettlements, wsSettlements]

def addr40 : String := ⟨'0' :: 'x' :: List.replicate 40 'a'⟩

def hash64 : String := ⟨'0' :: 'x' :: List.replicate 64 'b'⟩

def sig128 : String := ⟨'0' :: 'x' :: List.replicate 128 'c'⟩

def sig64 : String := ⟨'0' :: 'x' :: List.replicate 64 'c'⟩

/-- A concrete mandate in which every field satisfies its format rule. -/
def validMandate : Json := .obj [
  ("chainId", .num 1),
  ("tribunal", .str addr40),
  ("recipient", .str addr40),
  ("expires", .str "1000"),
  ("token", .str addr40),
  ("minimumAmount", .str "0x64"),
  ("baselinePriorityFee", .str "0"),
  ("scalingFactor", .str "1000000000100000000"),
  ("salt", .str hash64)]

/-- A concrete compact message in which every field satisfies its format rule. -/
def validCompact : Json := .obj [
  ("arbiter", .str addr40),
  ("sponsor", .str addr40),
  ("nonce", .str hash64),
  ("expires", .str "1000"),
  ("id", .str "0x01"),
  ("amount", .str "1000000"),
  ("mandate", validMandate)]

/-- A concrete context in which every field satisfies its format rule. -/
def validContext : Json := .obj [
  ("dispensation", .str "100"),
  ("dispensationUSD", .str "$1.00"),
  ("spotOutputAmount", .str "1000"),
  ("quoteOutputAmountDirect", .str "1000"),
  ("quoteOutputAmountNet", .str "990"),
  ("witnessTypeString", .str "Mandate witness"),
  ("witnessHash", .str hash64)]

/-- The field list of a concrete valid broadcast request body. -/
def validBodyFields : List (String × Json) := [
  ("chainId", .str "10"),
  ("compact", validCompact),
  ("sponsorSignature", .null),
  ("allocatorSignature", .str sig128),
  ("context", validContext)]

/-- A concrete broadcast request body accepted by BroadcastRequestSchema. -/
def validBody : Json := .obj validBodyFields

/-- Three configured endpoints. -/
def cfgN3 : Config :=
  { endpoints := ["http://endpoint-1", "http://endpoint-2", "http://endpoint-3"], port := 3000 }

/-- Zero configured endpoints. -/
def cfgN0 : Config := { endpoints := [], port := 3000 }

/-- One configured endpoint. -/
def cfgN1 : Config := { endpoints := ["http://endpoint-1"], port := 3000 }

/-- A network in which exactly endpoint #2 fails at the transport level. -/
def netFail2 : String → HttpResult :=
  fun e => if e == "http://endpoint-2" then .transportError else .response 200

/-- A network in which every endpoint answers 200. -/
def netOk : String → HttpResult := fun _ => .response 200

/-- Two open subscribers whose sends succeed. -/
def clientsM2 : List Subscriber :=
  [{ readyState := .OPEN, sendError := false }, { readyState := .OPEN, sendError := false }]

/-- C1: for every dispatch of a validated message with N configured endpoints
and M subscribers open at the instant of dispatch, the response is HTTP 200 with
success = true regardless of individual channel failures, and the report has
http.total = N, websocket.total = M, and failure counts equal to the number of
failed attempts on each channel. -/
theorem c1_dispatch_report_counts (config : Config) (clients : List Subscriber)
    (net : String → HttpResult) (body : Json)
    (h : BroadcastRequestSchema body = []) :
    (handleBroadcast config clients net body).status = 200 ∧
    (handleBroadcast config clients net body).success = true ∧
    (handleBroadcast config clients net body).report = some
      { http := { total := config.endpoints.length,
                  failures := (config.endpoints.filter fun e => !axiosSettles (net e)).length },
        websocket := { total := (openClients clients).length,
                       failures := ((openClients clients).filter fun c => c.sendError).length } } := by
  unfold handleBroadcast
  rw [if_pos h]
  exact ⟨rfl, rfl, by rw [aggregateReport_eq]⟩

set_option maxRecDepth 8000 in
/-- C1 witness: with N = 3 endpoints of which exactly endpoint #2 fails and
M = 2 open subscribers, the report is http 3/1 and websocket 2/0 with a 200
success response; with N = 0 and M = 0 all counts are zero. -/
theorem c1_witness :
    (handleBroadcast cfgN3 clientsM2 netFail2 validBody).status = 200 ∧
    (handleBroadcast cfgN3 clientsM2 netFail2 validBody).success = true ∧
    (handleBroadcast cfgN3 clientsM2 netFail2 validBody).report = some
      { http := { total := 3, failures := 1 }, websocket := { total := 2, failures := 0 } } ∧
    (handleBroadcast cfgN0 [] netFail2 validBody).report = some
      { http := { total := 0, failures := 0 }, websocket := { total := 0, failures := 0 } } := by
  have h1 := c1_dispatch_report_counts cfgN3 clientsM2 netFail2 validBody (by decide)
  have h2 := c1_dispatch_report_counts cfgN0 [] netFail2 validBody (by decide)
  refine ⟨h1.1, h1.2.1, ?_, ?_⟩
  · rw [h1.2.2]; rfl
  · rw [h2.2.2]; rfl

theorem string_eq_mk_iff (s : String) (l : List Char) : s = ⟨l⟩ ↔ s.data = l := by
  constructor
  · intro h
    subst h
    rfl
  · intro h
    cases s
    exact congrArg String.mk h

theorem refinedString_eq_nil_iff (pred : String → Bool) (p : Path) (v : Json) :
    refinedString pred p v = [] ↔ ∃ s, v = Json.str s ∧ pred s = true := by
  cases v <;> simp [refinedString]

theorem refinedHexLen_eq_nil_iff (n k : Nat) (hn : n = k + 2) (pred : String → Bool)
    (hpred : ∀ s, pred s = (isHexString s && s.length == n)) (p : Path) (v : Json) :
    refinedString pred p v = [] ↔
    ∃ ds : List Char, v = Json.str ⟨'0' :: 'x' :: ds⟩ ∧ ds.length = k ∧
      ∀ c ∈ ds, isHexDigitChar c = true := by
  rw [refinedString_eq_nil_iff]
  constructor
  · rintro ⟨s, rfl, hs⟩
    rw [hpred] at hs
    obtain ⟨ds, hd, hlen, hall⟩ := (hexLen_iff s n k hn).mp hs
    exact ⟨ds, congrArg Json.str ((string_eq_mk_iff s _).mpr hd), hlen, hall⟩
  · rintro ⟨ds, rfl, hlen, hall⟩
    refine ⟨⟨'0' :: 'x' :: ds⟩, rfl, ?_⟩
    rw [hpred]
    exact (hexLen_iff _ n k hn).mpr ⟨ds, rfl, hlen, hall⟩

/-- C3: the sponsorSignature field accepts exactly three forms - the JSON value
null, the literal string 0x, and any string of 0x followed by exactly 128 hex
digits - and rejects every other value, including a 64-hex-digit string, a
non-hex string, and the empty string. -/
theorem c3_sponsorSignature_acceptance :
    (∀ (p : Path) (v : Json),
        sponsorSignatureSchema p v = [] ↔
          (v = Json.null ∨ v = Json.str "0x" ∨
            ∃ ds : List Char, v = Json.str ⟨'0' :: 'x' :: ds⟩ ∧ ds.length = 128 ∧
              ∀ c ∈ ds, isHexDigitChar c = true)) ∧
    sponsorSignatureSchema ["sponsorSignature"] (Json.str sig64) ≠ [] ∧
    sponsorSignatureSchema ["sponsorSignature"] (Json.str "zz") ≠ [] ∧
    sponsorSignatureSchema ["sponsorSignature"] (Json.str "") ≠ [] := by
  refine ⟨?_, by decide, by decide, by decide⟩
  intro p v
  cases v with
  | null => simp [sponsorSignatureSchema]
  | bool b => simp [sponsorSignatureSchema]
  | num q => simp [sponsorSignatureSchema]
  | arr l => simp [sponsorSignatureSchema]
  | obj kvs => simp [sponsorSignatureSchema]
  | str s =>
    have hsig : is64ByteHex s = true ↔
        ∃ ds : List Char, s = ⟨'0' :: 'x' :: ds⟩ ∧ ds.length = 128 ∧
          ∀ c ∈ ds, isHexDigitChar c = true := by
      unfold is64ByteHex
      rw [hexLen_iff s 130 128 rfl]
      constructor
      · rintro ⟨ds, hd, hlen, hall⟩
        exact ⟨ds, (string_eq_mk_iff s _).mpr hd, hlen, hall⟩
      · rintro ⟨ds, hd, hlen, hall⟩
        exact ⟨ds, (string_eq_mk_iff s _).mp hd, hlen, hall⟩
    have hemp : isEmptyHex s = true ↔ s = "0x" := by
      unfold isEmptyHex
      exact beq_iff_eq
    constructor
    · intro h
      by_cases hif : (isEmptyHex s || is64ByteHex s) = true
      · rw [Bool.or_eq_true] at hif
        rcases hif with h1 | h1
        · exact Or.inr (Or.inl (congrArg Json.str (hemp.mp h1)))
        · obtain ⟨ds, hd, hlen, hall⟩ := hsig.mp h1
          exact Or.inr (Or.inr ⟨ds, congrArg Json.str hd, hlen, hall⟩)
      · have hred : sponsorSignatureSchema p (Json.str s) = [p] := by
          simp only [sponsorSignatureSchema]
          rw [if_neg hif]
        rw [hred] at h
        exact absurd h (by simp)
    · rintro (hnull | hstr | ⟨ds, hd, hlen, hall⟩)
      · exact absurd hnull (by simp)
      · have hs : s = "0x" := by injection hstr
        have hcond : (isEmptyHex s || is64ByteHex s) = true := by
          rw [Bool.or_eq_true]
          exact Or.inl (hemp.mpr hs)
        simp only [sponsorSignatureSchema]
        rw [if_pos hcond]
      · have hs : s = ⟨'0' :: 'x' :: ds⟩ := by injection hd
        have hcond : (isEmptyHex s || is64ByteHex s) = true := by
          rw [Bool.or_eq_true]
          exact Or.inr (hsig.mpr ⟨ds, hs, hlen, hall⟩)
        simp only [sponsorSignatureSchema]
        rw [if_pos hcond]


/-- C4: every field class is validated by exactly its class rule: an address
field accepts exactly 0x plus 40 hex digits, a hash field exactly 0x plus 64
hex digits, the allocatorSignature exactly 0x plus 128 hex digits, a
numeric-or-hex field exactly the strings matching the regex of an optionally
negative decimal integer or the hex format (including bare 0x), the mandate
chain id exactly the integers in [1, 4294967295] (1 and 4294967295 pass, 0 and
4294967296 fail), and slippageBips, when present, exactly the integers in
[0, 10000], and it may be omitted. -/
theorem c4_field_class_rules :
    (∀ (p : Path) (v : Json), addressSchema p v = [] ↔
        ∃ ds : List Char, v = Json.str ⟨'0' :: 'x' :: ds⟩ ∧ ds.length = 40 ∧
          ∀ c ∈ ds, isHexDigitChar c = true) ∧
    (∀ (p : Path) (v : Json), hashSchema p v = [] ↔
        ∃ ds : List Char, v = Json.str ⟨'0' :: 'x' :: ds⟩ ∧ ds.length = 64 ∧
          ∀ c ∈ ds, isHexDigitChar c = true) ∧
    (∀ (p : Path) (v : Json), allocatorSignatureSchema p v = [] ↔
        ∃ ds : List Char, v = Json.str ⟨'0' :: 'x' :: ds⟩ ∧ ds.length = 128 ∧
          ∀ c ∈ ds, isHexDigitChar c = true) ∧
    (∀ (p : Path) (v : Json), numericOrHexSchema p v = [] ↔
        ∃ s, v = Json.str s ∧
          ((∃ ds, ds ≠ [] ∧ (∀ c ∈ ds, c.isDigit = true) ∧
              (s.data = ds ∨ s.data = '-' :: ds)) ∨
           (∃ ds, s.data = '0' :: 'x' :: ds ∧ ∀ c ∈ ds, isHexDigitChar c = true))) ∧
    (∀ (p : Path) (v : Json), boundedIntSchema 1 (UINT32_MAX : Rat) p v = [] ↔
        ∃ n : Int, v = Json.num (n : Rat) ∧ 1 ≤ n ∧ n ≤ 4294967295) ∧
    (∀ (p : Path) (v : Json), boundedIntSchema 0 10000 p v = [] ↔
        ∃ n : Int, v = Json.num (n : Rat) ∧ 0 ≤ n ∧ n ≤ 10000) ∧
    (∀ (kvs : List (String × Json)) (p : Path), kvs.lookup "slippageBips" = none →
        optionalField kvs p "slippageBips" (boundedIntSchema 0 10000) = []) ∧
    boundedIntSchema 1 (UINT32_MAX : Rat) ["compact", "mandate", "chainId"] (Json.num 1) = [] ∧
    boundedIntSchema 1 (UINT32_MAX : Rat) ["compact", "mandate", "chainId"] (Json.num 4294967295) = [] ∧
    boundedIntSchema 1 (UINT32_MAX : Rat) ["compact", "mandate", "chainId"] (Json.num 0) ≠ [] ∧
    boundedIntSchema 1 (UINT32_MAX : Rat) ["compact", "mandate", "chainId"] (Json.num 4294967296) ≠ [] := by
  have e1 : ((1 : Int) : Rat) = (1 : Rat) := by norm_cast
  have e0 : ((0 : Int) : Rat) = (0 : Rat) := by norm_cast
  have e32 : ((4294967295 : Int) : Rat) = (UINT32_MAX : Rat) := by
    unfold UINT32_MAX
    norm_cast
  have e10k : ((10000 : Int) : Rat) = (10000 : Rat) := by norm_cast
  refine ⟨?_, ?_, ?_, ?_, ?_, ?_, ?_, by decide, by decide, by decide, by decide⟩
  · intro p v
    unfold addressSchema
    exact refinedHexLen_eq_nil_iff 42 40 rfl isAddress (fun s => rfl) p v
  · intro p v
    unfold hashSchema
    exact refinedHexLen_eq_nil_iff 66 64 rfl isHash (fun s => rfl) p v
  · intro p v
    unfold allocatorSignatureSchema
    exact refinedHexLen_eq_nil_iff 130 128 rfl is64ByteHex (fun s => rfl) p v
  · intro p v
    unfold numericOrHexSchema
    rw [refinedString_eq_nil_iff]
    constructor
    · rintro ⟨s, rfl, hs⟩
      refine ⟨s, rfl, ?_⟩
      unfold isNumericOrHexString at hs
      rw [Bool.or_eq_true] at hs
      rcases hs with h | h
      · exact Or.inl ((isNumericString_iff s).mp h)
      · exact Or.inr ((isHexString_iff s).mp h)
    · rintro ⟨s, rfl, hs⟩
      refine ⟨s, rfl, ?_⟩
      unfold isNumericOrHexString
      rw [Bool.or_eq_true]
      rcases hs with h | h
      · exact Or.inl ((isNumericString_iff s).mpr h)
      · exact Or.inr ((isHexString_iff s).mpr h)
  · intro p v
    have h := boundedIntSchema_int_iff 1 4294967295 p v
    rw [e1, e32] at h
    exact h
  · intro p v
    have h := boundedIntSchema_int_iff 0 10000 p v
    rw [e0, e10k] at h
    exact h
  · intro kvs p h
    exact optionalField_none h

/-- C4 witness: an object without a slippageBips key raises no slippage issue. -/
theorem c4_witness :
    optionalField ([] : List (String × Json)) ["context"] "slippageBips"
      (boundedIntSchema 0 10000) = [] :=
  c4_field_class_rules.2.2.2.2.2.2.1 [] ["context"] rfl

/-- C5 counterexample: the claim that an HTTP attempt fails for reporting
purposes only when the outbound call errors at the transport level is false: at
the concrete input of a completed response with status 404, axios (with its
default validateStatus, which the call site does not override) rejects the
promise, so the attempt is recorded as a failure although the transport
completed. -/
theorem c5_counterexample :
    ¬ (∀ r : HttpResult, axiosSettles r = false → r = HttpResult.transportError) := by
  intro hclaim
  have h := hclaim (HttpResult.response 404) (by decide)
  exact absurd h (by decide)

/-- C5 amended: the response status code is inspected: an HTTP attempt succeeds
for reporting purposes iff the transport completed with a 2xx status, and the
attempt is recorded as a failure iff the call rejects, i.e. on a
transport-level error or on a completed response with a non-2xx status (the
axios default validateStatus). -/
theorem c5_amended_status_inspected (r : HttpResult) :
    (axiosSettles r = true ↔ ∃ st, r = HttpResult.response st ∧ 200 ≤ st ∧ st < 300) ∧
    (httpOutcome r = Settled.rejected ↔
      (r = HttpResult.transportError ∨
       ∃ st, r = HttpResult.response st ∧ (st < 200 ∨ 300 ≤ st))) := by
  cases r with
  | transportError => simp [axiosSettles, httpOutcome]
  | response st =>
    have hax : axiosSettles (HttpResult.response st) = true ↔ (200 ≤ st ∧ st < 300) := by
      unfold axiosSettles
      simp
    have hout : httpOutcome (HttpResult.response st) = Settled.rejected ↔
        ¬(200 ≤ st ∧ st < 300) := by
      unfold httpOutcome
      by_cases hc : axiosSettles (HttpResult.response st) = true
      · rw [if_pos hc]
        simp [hax.mp hc]
      · rw [if_neg hc]
        rw [hax] at hc
        simp [hc]
    refine ⟨?_, ?_⟩
    · rw [hax]
      constructor
      · rintro ⟨hh1, hh2⟩
        exact ⟨st, rfl, hh1, hh2⟩
      · rintro ⟨st2, heq, hh1, hh2⟩
        injection heq with he
        subst he
        exact ⟨hh1, hh2⟩
    · rw [hout]
      constructor
      · intro hnot
        right
        refine ⟨st, rfl, ?_⟩
        omega
      · rintro (heq | ⟨st2, heq, hb⟩)
        · simp at heq
        · injection heq with he
          subst he
          omega

theorem configStructureOk_iff (j : Json) :
    configStructureOk j = true ↔
    ∃ kvs, j = Json.obj kvs ∧ (∃ es, kvs.lookup "endpoints" = some (Json.arr es)) ∧
      ∃ q, kvs.lookup "port" = some (Json.num q) := by
  cases j <;> simp [configStructureOk]
  case obj kvs =>
    constructor
    · rintro ⟨h1, h2⟩
      constructor
      · split at h1
        · next es heq => exact ⟨es, heq⟩
        · exact absurd h1 (by simp)
      · split at h2
        · next q heq => exact ⟨q, heq⟩
        · exact absurd h2 (by simp)
    · rintro ⟨⟨es, he⟩, ⟨q, hq⟩⟩
      rw [he, hq]
      exact ⟨rfl, rfl⟩

/-- The malformed-configuration condition of the claim: config.json unreadable,
or invalid JSON, or the parsed value lacking an array endpoints key or a
numeric port key. -/
def configMalformed (i : StartupInput) : Prop :=
  i = StartupInput.readError ∨ i = StartupInput.invalidJson ∨
  ∃ j, i = StartupInput.parsed j ∧
    ¬ ∃ kvs, j = Json.obj kvs ∧ (∃ es, kvs.lookup "endpoints" = some (Json.arr es)) ∧
        ∃ q, kvs.lookup "port" = some (Json.num q)

/-- C8: startup reaches the exited-before-serving state exactly when the
configuration is malformed or missing - unreadable config file, invalid JSON,
missing or non-array endpoints list, or missing or non-numeric port - and in
every such case the process exits without ever starting to serve. -/
theorem c8_malformed_config_is_fatal (i : StartupInput) :
    configMalformed i ↔ initializeServer i = StartupOutcome.exitedBeforeServing := by
  cases i with
  | readError => simp [configMalformed, initializeServer, loadConfig]
  | invalidJson => simp [configMalformed, initializeServer, loadConfig]
  | parsed j =>
    simp only [configMalformed, initializeServer, loadConfig]
    by_cases h : configStructureOk j = true
    · rw [if_pos h]
      simp only [reduceCtorEq, false_or]
      constructor
      · rintro ⟨j2, hj, hnot⟩
        injection hj with he
        subst he
        exact absurd ((configStructureOk_iff j).mp h) hnot
      · intro hserving
        exact absurd hserving (by simp)
    · rw [if_neg h]
      simp only [reduceCtorEq, false_or]
      constructor
      · intro hx
        trivial
      · intro hx
        refine ⟨j, rfl, ?_⟩
        intro hex
        exact h ((configStructureOk_iff j).mpr hex)

/-- C9: for every payload in which every field matches its required format -
i.e. the schema reports no violation - validation succeeds and returns the
payload unchanged, and validation is idempotent: validating the accepted
result again yields the same accepted result. -/
theorem c9_validate_returns_input_idempotent (body : Json) :
    (BroadcastRequestSchema body = [] → validatePayload body = Except.ok body) ∧
    (∀ r, validatePayload body = Except.ok r →
      r = body ∧ validatePayload r = Except.ok r) := by
  constructor
  · intro h
    simp [validatePayload, h]
  · intro r h
    by_cases hb : BroadcastRequestSchema body = []
    · rw [validatePayload, if_pos hb] at h
      injection h with he
      subst he
      exact ⟨rfl, by rw [validatePayload, if_pos hb]⟩
    · rw [validatePayload, if_neg hb] at h
      exact absurd h (by simp)

set_option maxRecDepth 8000 in
/-- C9 witness: the concrete valid payload round-trips through validation. -/
theorem c9_witness : validatePayload validBody = Except.ok validBody :=
  (c9_validate_returns_input_idempotent validBody).1 (by decide)

/-- C6: for one dispatch, the settled list collected by the all-settling
combinator has exactly N + M entries - one per attempt, none dropped and none
cancelled - and the entry of each attempt is determined by that attempt alone:
position i below N is the settlement of the axios call to endpoint i under the
network environment, and position N + j is the settlement of the send to open
subscriber j, regardless of how every sibling attempt settles. -/
theorem c6_settle_all_covers_every_attempt (config : Config) (clients : List Subscriber)
    (net : String → HttpResult) :
    (broadcastResults config clients net).length
      = config.endpoints.length + (openClients clients).length ∧
    (∀ i, ∀ h : i < config.endpoints.length,
      (broadcastResults config clients net)[i]? =
        some (httpOutcome (net (config.endpoints.get ⟨i, h⟩)))) ∧
    (∀ j, ∀ h : j < (openClients clients).length,
      (broadcastResults config clients net)[config.endpoints.length + j]? =
        some (wsOutcome ((openClients clients).get ⟨j, h⟩))) := by
  have hlen : (httpSettlements config.endpoints net).length = config.endpoints.length := by
    simp [httpSettlements]
  refine ⟨?_, ?_, ?_⟩
  · simp [broadcastResults, httpSettlements, wsSettlements]
  · intro i h
    rw [broadcastResults, List.getElem?_append_left (by rw [hlen]; exact h)]
    rw [httpSettlements, List.getElem?_map, List.getElem?_eq_getElem h]
    simp
  · intro j h
    rw [broadcastResults, List.getElem?_append_right (by rw [hlen]; omega)]
    rw [hlen, Nat.add_sub_cancel_left]
    rw [wsSettlements, List.getElem?_map, List.getElem?_eq_getElem h]
    simp

set_option maxRecDepth 8000 in
/-- C6 witness: with 3 endpoints (endpoint #2 failing) and 2 open subscribers,
all 5 attempts are settled and collected: the entry of the failing endpoint is
rejected while every sibling entry is fulfilled. -/
theorem c6_witness :
    (broadcastResults cfgN3 clientsM2 netFail2).length = 3 + 2 ∧
    (broadcastResults cfgN3 clientsM2 netFail2)[1]? = some Settled.rejected ∧
    (broadcastResults cfgN3 clientsM2 netFail2)[3]? = some Settled.fulfilled := by
  have h := c6_settle_all_covers_every_attempt cfgN3 clientsM2 netFail2
  refine ⟨?_, ?_, ?_⟩
  · rw [h.1]
    rfl
  · have h2 := h.2.1 1 (by decide)
    rw [h2]
    rfl
  · have h3 := h.2.2 0 (by decide)
    have he : cfgN3.endpoints.length + 0 = 3 := rfl
    rw [he] at h3
    rw [h3]
    rfl

/-- C7: only subscribers whose connection state is open at the instant the
dispatch snapshots the client set are sent to and counted in the websocket
total; a subscriber that disconnected just before dispatch is excluded from the
snapshot and from every settled list, while an open subscriber whose send
errors in flight adds exactly one websocket failure, and the request still
completes with a 200 success response. -/
theorem c7_snapshot_excludes_closed_counts_send_failures :
    (∀ (c : Subscriber) (clients : List Subscriber), c.readyState ≠ WsReadyState.OPEN →
        openClients (c :: clients) = openClients clients ∧
        wsSettlements (c :: clients) = wsSettlements clients) ∧
    (∀ (c : Subscriber) (clients : List Subscriber),
        c.readyState = WsReadyState.OPEN → c.sendError = true →
        rejectedCount (wsSettlements (c :: clients)) =
          rejectedCount (wsSettlements clients) + 1) ∧
    (∀ (config : Config) (clients : List Subscriber) (net : String → HttpResult)
        (body : Json), BroadcastRequestSchema body = [] →
        (handleBroadcast config clients net body).status = 200 ∧
        (handleBroadcast config clients net body).success = true ∧
        ∃ r, (handleBroadcast config clients net body).report = some r ∧
          r.websocket.total = (openClients clients).length) := by
  refine ⟨?_, ?_, ?_⟩
  · intro c clients hc
    have hb : (c.readyState == WsReadyState.OPEN) = false := beq_eq_false_iff_ne.mpr hc
    have ho : openClients (c :: clients) = openClients clients := by
      rw [openClients, List.filter_cons, hb]
      rfl
    exact ⟨ho, by rw [wsSettlements, ho, wsSettlements]⟩
  · intro c clients hc hs
    have hb : (c.readyState == WsReadyState.OPEN) = true := by rw [hc]; rfl
    have ho : openClients (c :: clients) = c :: openClients clients := by
      rw [openClients, List.filter_cons, hb]
      rfl
    rw [wsSettlements, ho, List.map_cons, rejectedCount_cons, wsSettlements]
    rw [wsOutcome, if_pos hs]
    simp [Nat.add_comm]
  · intro config clients net body h
    unfold handleBroadcast
    rw [if_pos h]
    refine ⟨rfl, rfl, aggregateReport config clients net, rfl, ?_⟩
    rw [aggregateReport_eq]

/-- A subscriber that already disconnected before dispatch. -/
def closedClient : Subscriber := { readyState := .CLOSED, sendError := false }

/-- An open subscriber whose connection fails during the in-flight send. -/
def failingClient : Subscriber := { readyState := .OPEN, sendError := true }

set_option maxRecDepth 8000 in
/-- C7 witness: a closed subscriber leaves the dispatch snapshot unchanged; a
failing open subscriber adds exactly one websocket failure; the request with a
failing subscriber still answers 200. -/
theorem c7_witness :
    openClients (closedClient :: clientsM2) = openClients clientsM2 ∧
    rejectedCount (wsSettlements (failingClient :: clientsM2)) =
      rejectedCount (wsSettlements clientsM2) + 1 ∧
    (handleBroadcast cfgN3 (failingClient :: clientsM2) netFail2 validBody).status = 200 := by
  have h := c7_snapshot_excludes_closed_counts_send_failures
  exact ⟨(h.1 closedClient clientsM2 (by decide)).1,
    h.2.1 failingClient clientsM2 rfl rfl,
    (h.2.2 cfgN3 (failingClient :: clientsM2) netFail2 validBody (by decide)).1⟩

/-- C10: a request body satisfying every declared field rule is also accepted
when it additionally carries unrecognized extra keys (at the top level or
inside compact, mandate, or context): an undeclared key changes no issue list,
so it is never reported; and because dispatch forwards the raw req.body rather
than the zod parse result, the extra keys are present verbatim in the JSON
handed to every HTTP endpoint and every subscriber. -/
theorem c10_extra_keys_ignored_and_forwarded :
    (∀ (kvs : List (String × Json)) (k : String) (v : Json),
        k ∉ (["chainId", "compact", "sponsorSignature", "allocatorSignature",
              "context", "claimHash"] : List String) →
        BroadcastRequestSchema (Json.obj ((k, v) :: kvs)) =
          BroadcastRequestSchema (Json.obj kvs)) ∧
    (∀ (p : Path) (kvs : List (String × Json)) (k : String) (v : Json),
        k ∉ (["arbiter", "sponsor", "nonce", "expires", "id", "amount",
              "mandate"] : List String) →
        CompactMessageSchema p (Json.obj ((k, v) :: kvs)) =
          CompactMessageSchema p (Json.obj kvs)) ∧
    (∀ (p : Path) (kvs : List (String × Json)) (k : String) (v : Json),
        k ∉ (["chainId", "tribunal", "recipient", "expires", "token",
              "minimumAmount", "baselinePriorityFee", "scalingFactor",
              "salt"] : List String) →
        MandateSchema p (Json.obj ((k, v) :: kvs)) = MandateSchema p (Json.obj kvs)) ∧
    (∀ (p : Path) (kvs : List (String × Json)) (k : String) (v : Json),
        k ∉ (["dispensation", "dispensationUSD", "spotOutputAmount",
              "quoteOutputAmountDirect", "quoteOutputAmountNet", "deltaAmount",
              "slippageBips", "witnessTypeString", "witnessHash",
              "claimHash"] : List String) →
        ContextSchema p (Json.obj ((k, v) :: kvs)) = ContextSchema p (Json.obj kvs)) ∧
    (∀ (config : Config) (clients : List Subscriber) (net : String → HttpResult)
        (body : Json), BroadcastRequestSchema body = [] →
        (handleBroadcast config clients net body).httpDeliveries =
          config.endpoints.map (fun e => (e, body)) ∧
        (handleBroadcast config clients net body).wsDeliveries =
          (openClients clients).map (fun _ => body)) := by
  refine ⟨?_, ?_, ?_, ?_, ?_⟩
  · intro kvs k v hk
    simp only [List.mem_cons, List.mem_singleton, not_or] at hk
    obtain ⟨h1, h2, h3, h4, h5, h6, -⟩ := hk
    simp only [BroadcastRequestSchema, requiredField, optionalField,
      lookup_cons_ne k "chainId" v kvs h1, lookup_cons_ne k "compact" v kvs h2,
      lookup_cons_ne k "sponsorSignature" v kvs h3,
      lookup_cons_ne k "allocatorSignature" v kvs h4,
      lookup_cons_ne k "context" v kvs h5, lookup_cons_ne k "claimHash" v kvs h6]
  · intro p kvs k v hk
    simp only [List.mem_cons, List.mem_singleton, not_or] at hk
    obtain ⟨h1, h2, h3, h4, h5, h6, h7, -⟩ := hk
    simp only [CompactMessageSchema, requiredField,
      lookup_cons_ne k "arbiter" v kvs h1, lookup_cons_ne k "sponsor" v kvs h2,
      lookup_cons_ne k "nonce" v kvs h3, lookup_cons_ne k "expires" v kvs h4,
      lookup_cons_ne k "id" v kvs h5, lookup_cons_ne k "amount" v kvs h6,
      lookup_cons_ne k "mandate" v kvs h7]
  · intro p kvs k v hk
    simp only [List.mem_cons, List.mem_singleton, not_or] at hk
    obtain ⟨h1, h2, h3, h4, h5, h6, h7, h8, h9, -⟩ := hk
    simp only [MandateSchema, requiredField,
      lookup_cons_ne k "chainId" v kvs h1, lookup_cons_ne k "tribunal" v kvs h2,
      lookup_cons_ne k "recipient" v kvs h3, lookup_cons_ne k "expires" v kvs h4,
      lookup_cons_ne k "token" v kvs h5, lookup_cons_ne k "minimumAmount" v kvs h6,
      lookup_cons_ne k "baselinePriorityFee" v kvs h7,
      lookup_cons_ne k "scalingFactor" v kvs h8, lookup_cons_ne k "salt" v kvs h9]
  · intro p kvs k v hk
    simp only [List.mem_cons, List.mem_singleton, not_or] at hk
    obtain ⟨h1, h2, h3, h4, h5, h6, h7, h8, h9, h10, -⟩ := hk
    simp only [ContextSchema, requiredField, optionalField,
      lookup_cons_ne k "dispensation" v kvs h1,
      lookup_cons_ne k "dispensationUSD" v kvs h2,
      lookup_cons_ne k "spotOutputAmount" v kvs h3,
      lookup_cons_ne k "quoteOutputAmountDirect" v kvs h4,
      lookup_cons_ne k "quoteOutputAmountNet" v kvs h5,
      lookup_cons_ne k "deltaAmount" v kvs h6,
      lookup_cons_ne k "slippageBips" v kvs h7,
      lookup_cons_ne k "witnessTypeString" v kvs h8,
      lookup_cons_ne k "witnessHash" v kvs h9,
      lookup_cons_ne k "claimHash" v kvs h10]
  · intro config clients net body h
    unfold handleBroadcast
    rw [if_pos h]
    exact ⟨rfl, rfl⟩

/-- The concrete valid body extended with an unrecognized top-level key. -/
def extraBody : Json := Json.obj (("fillerHint", Json.str "fast") :: validBodyFields)

set_option maxRecDepth 8000 in
/-- C10 witness: the valid body with an extra key is accepted and the extra key
reaches the delivered payload of the single endpoint and both subscribers
verbatim. -/
theorem c10_witness :
    BroadcastRequestSchema extraBody = [] ∧
    (handleBroadcast cfgN1 clientsM2 netOk extraBody).httpDeliveries =
      [("http://endpoint-1", extraBody)] ∧
    (handleBroadcast cfgN1 clientsM2 netOk extraBody).wsDeliveries =
      [extraBody, extraBody] := by
  have hv : BroadcastRequestSchema extraBody = [] := by
    show BroadcastRequestSchema (Json.obj (("fillerHint", Json.str "fast") :: validBodyFields)) = []
    rw [c10_extra_keys_ignored_and_forwarded.1 validBodyFields "fillerHint"
      (Json.str "fast") (by decide)]
    decide
  have h5 := c10_extra_keys_ignored_and_forwarded.2.2.2.2 cfgN1 clientsM2 netOk extraBody hv
  refine ⟨hv, ?_, ?_⟩
  · rw [h5.1]
    rfl
  · rw [h5.2]
    rfl

theorem mem_broadcastSchema_of {kvs : List (String × Json)} {q : Path}
    (hq : q ∈ requiredField kvs [] "chainId" numericOrHexSchema ∨
          q ∈ requiredField kvs [] "compact" CompactMessageSchema ∨
          q ∈ requiredField kvs [] "sponsorSignature" sponsorSignatureSchema ∨
          q ∈ requiredField kvs [] "allocatorSignature" allocatorSignatureSchema ∨
          q ∈ requiredField kvs [] "context" ContextSchema ∨
          q ∈ optionalField kvs [] "claimHash" hashSchema) :
    q ∈ BroadcastRequestSchema (Json.obj kvs) := by
  simp only [BroadcastRequestSchema, List.mem_append]
  tauto

theorem mem_compactSchema_of {cvs : List (String × Json)} {p q : Path}
    (hq : q ∈ requiredField cvs p "arbiter" addressSchema ∨
          q ∈ requiredField cvs p "sponsor" addressSchema ∨
          q ∈ requiredField cvs p "nonce" hashSchema ∨
          q ∈ requiredField cvs p "expires" numericOrHexSchema ∨
          q ∈ requiredField cvs p "id" numericOrHexSchema ∨
          q ∈ requiredField cvs p "amount" numericOrHexSchema ∨
          q ∈ requiredField cvs p "mandate" MandateSchema) :
    q ∈ CompactMessageSchema p (Json.obj cvs) := by
  simp only [CompactMessageSchema, List.mem_append]
  tauto

theorem mem_mandateSchema_of {mvs : List (String × Json)} {p q : Path}
    (hq : q ∈ requiredField mvs p "chainId" (boundedIntSchema 1 (UINT32_MAX : Rat)) ∨
          q ∈ requiredField mvs p "tribunal" addressSchema ∨
          q ∈ requiredField mvs p "recipient" addressSchema ∨
          q ∈ requiredField mvs p "expires" numericOrHexSchema ∨
          q ∈ requiredField mvs p "token" addressSchema ∨
          q ∈ requiredField mvs p "minimumAmount" numericOrHexSchema ∨
          q ∈ requiredField mvs p "baselinePriorityFee" numericOrHexSchema ∨
          q ∈ requiredField mvs p "scalingFactor" numericOrHexSchema ∨
          q ∈ requiredField mvs p "salt" hashSchema) :
    q ∈ MandateSchema p (Json.obj mvs) := by
  simp only [MandateSchema, List.mem_append]
  tauto

theorem mem_contextSchema_of {xvs : List (String × Json)} {p q : Path}
    (hq : q ∈ requiredField xvs p "dispensation" numericOrHexSchema ∨
          q ∈ requiredField xvs p "dispensationUSD" plainString ∨
          q ∈ requiredField xvs p "spotOutputAmount" numericOrHexSchema ∨
          q ∈ requiredField xvs p "quoteOutputAmountDirect" numericOrHexSchema ∨
          q ∈ requiredField xvs p "quoteOutputAmountNet" numericOrHexSchema ∨
          q ∈ optionalField xvs p "deltaAmount" numericOrHexSchema ∨
          q ∈ optionalField xvs p "slippageBips" (boundedIntSchema 0 10000) ∨
          q ∈ requiredField xvs p "witnessTypeString" plainString ∨
          q ∈ requiredField xvs p "witnessHash" hashSchema ∨
          q ∈ optionalField xvs p "claimHash" hashSchema) :
    q ∈ ContextSchema p (Json.obj xvs) := by
  simp only [ContextSchema, List.mem_append]
  tauto

theorem mem_broadcast_of_mem_compact {kvs cvs : List (String × Json)} {q : Path}
    (hcomp : kvs.lookup "compact" = some (Json.obj cvs))
    (hq : q ∈ CompactMessageSchema ["compact"] (Json.obj cvs)) :
    q ∈ BroadcastRequestSchema (Json.obj kvs) := by
  apply mem_broadcastSchema_of
  refine Or.inr (Or.inl ?_)
  rw [requiredField_some hcomp]
  simpa using hq

theorem mem_compact_of_mem_mandate {cvs mvs : List (String × Json)} {q : Path}
    (hmand : cvs.lookup "mandate" = some (Json.obj mvs))
    (hq : q ∈ MandateSchema ["compact", "mandate"] (Json.obj mvs)) :
    q ∈ CompactMessageSchema ["compact"] (Json.obj cvs) := by
  apply mem_compactSchema_of
  refine Or.inr (Or.inr (Or.inr (Or.inr (Or.inr (Or.inr ?_)))))
  rw [requiredField_some hmand]
  simpa using hq

theorem mem_broadcast_of_mem_context {kvs xvs : List (String × Json)} {q : Path}
    (hctx : kvs.lookup "context" = some (Json.obj xvs))
    (hq : q ∈ ContextSchema ["context"] (Json.obj xvs)) :
    q ∈ BroadcastRequestSchema (Json.obj kvs) := by
  apply mem_broadcastSchema_of
  refine Or.inr (Or.inr (Or.inr (Or.inr (Or.inl ?_))))
  rw [requiredField_some hctx]
  simpa using hq

/-- The required top-level fields of BroadcastRequestSchema with their field
schemas. -/
def topFieldPairs : List (String × (Path → Json → List Path)) :=
  [("chainId", numericOrHexSchema), ("compact", CompactMessageSchema),
   ("sponsorSignature", sponsorSignatureSchema),
   ("allocatorSignature", allocatorSignatureSchema), ("context", ContextSchema)]

/-- The fields of CompactMessageSchema with their field schemas. -/
def compactFieldPairs : List (String × (Path → Json → List Path)) :=
  [("arbiter", addressSchema), ("sponsor", addressSchema), ("nonce", hashSchema),
   ("expires", numericOrHexSchema), ("id", numericOrHexSchema),
   ("amount", numericOrHexSchema), ("mandate", MandateSchema)]

/-- The fields of MandateSchema with their field schemas. -/
def mandateFieldPairs : List (String × (Path → Json → List Path)) :=
  [("chainId", boundedIntSchema 1 (UINT32_MAX : Rat)), ("tribunal", addressSchema),
   ("recipient", addressSchema), ("expires", numericOrHexSchema),
   ("token", addressSchema), ("minimumAmount", numericOrHexSchema),
   ("baselinePriorityFee", numericOrHexSchema), ("scalingFactor", numericOrHexSchema),
   ("salt", hashSchema)]

/-- The required fields of ContextSchema with their field schemas. -/
def contextFieldPairs : List (String × (Path → Json → List Path)) :=
  [("dispensation", numericOrHexSchema), ("dispensationUSD", plainString),
   ("spotOutputAmount", numericOrHexSchema),
   ("quoteOutputAmountDirect", numericOrHexSchema),
   ("quoteOutputAmountNet", numericOrHexSchema), ("witnessTypeString", plainString),
   ("witnessHash", hashSchema)]

/-- The optional fields of ContextSchema with their field schemas. -/
def contextOptionalPairs : List (String × (Path → Json → List Path)) :=
  [("deltaAmount", numericOrHexSchema), ("slippageBips", boundedIntSchema 0 10000),
   ("claimHash", hashSchema)]

/-- C2: an invalid payload is answered 400 with success = false and error
Invalid payload, the structured issue list as details, and no dispatch attempt
on either channel; validation never throws to the caller (it is a total
function into a result). The aggregated issue list names every violated field,
not just the first: a missing required field is reported at exactly its path,
every issue of every declared field check at every nesting level appears in
the aggregate independently of the other fields, and every failing leaf check
reports the path of its own field. -/
theorem c2_invalid_payload_rejected_all_violations_named :
    (∀ (config : Config) (clients : List Subscriber) (net : String → HttpResult)
        (body : Json), BroadcastRequestSchema body ≠ [] →
        (handleBroadcast config clients net body).status = 400 ∧
        (handleBroadcast config clients net body).success = false ∧
        (handleBroadcast config clients net body).error = some "Invalid payload" ∧
        (handleBroadcast config clients net body).details = BroadcastRequestSchema body ∧
        (handleBroadcast config clients net body).report = none ∧
        (handleBroadcast config clients net body).httpDeliveries = [] ∧
        (handleBroadcast config clients net body).wsDeliveries = []) ∧
    (∀ (kvs : List (String × Json)) (path : Path) (key : String)
        (f : Path → Json → List Path), kvs.lookup key = none →
        requiredField kvs path key f = [path ++ [key]]) ∧
    (∀ (kvs : List (String × Json)) (k : String) (f : Path → Json → List Path)
        (q : Path), (k, f) ∈ topFieldPairs → q ∈ requiredField kvs [] k f →
        q ∈ BroadcastRequestSchema (Json.obj kvs)) ∧
    (∀ (kvs : List (String × Json)) (q : Path),
        q ∈ optionalField kvs [] "claimHash" hashSchema →
        q ∈ BroadcastRequestSchema (Json.obj kvs)) ∧
    (∀ (kvs cvs : List (String × Json)) (k : String) (f : Path → Json → List Path)
        (q : Path), kvs.lookup "compact" = some (Json.obj cvs) →
        (k, f) ∈ compactFieldPairs → q ∈ requiredField cvs ["compact"] k f →
        q ∈ BroadcastRequestSchema (Json.obj kvs)) ∧
    (∀ (kvs cvs mvs : List (String × Json)) (k : String)
        (f : Path → Json → List Path) (q : Path),
        kvs.lookup "compact" = some (Json.obj cvs) →
        cvs.lookup "mandate" = some (Json.obj mvs) →
        (k, f) ∈ mandateFieldPairs →
        q ∈ requiredField mvs ["compact", "mandate"] k f →
        q ∈ BroadcastRequestSchema (Json.obj kvs)) ∧
    (∀ (kvs xvs : List (String × Json)) (k : String) (f : Path → Json → List Path)
        (q : Path), kvs.lookup "context" = some (Json.obj xvs) →
        (k, f) ∈ contextFieldPairs → q ∈ requiredField xvs ["context"] k f →
        q ∈ BroadcastRequestSchema (Json.obj kvs)) ∧
    (∀ (kvs xvs : List (String × Json)) (k : String) (f : Path → Json → List Path)
        (q : Path), kvs.lookup "context" = some (Json.obj xvs) →
        (k, f) ∈ contextOptionalPairs → q ∈ optionalField xvs ["context"] k f →
        q ∈ BroadcastRequestSchema (Json.obj kvs)) ∧
    (∀ (pred : String → Bool) (p : Path) (v : Json),
        refinedString pred p v ≠ [] → p ∈ refinedString pred p v) ∧
    (∀ (p : Path) (v : Json), plainString p v ≠ [] → p ∈ plainString p v) ∧
    (∀ (p : Path) (v : Json),
        sponsorSignatureSchema p v ≠ [] → p ∈ sponsorSignatureSchema p v) ∧
    (∀ (lo hi : Rat) (p : Path) (v : Json),
        boundedIntSchema lo hi p v ≠ [] → p ∈ boundedIntSchema lo hi p v) := by
  refine ⟨?_, ?_, ?_, ?_, ?_, ?_, ?_, ?_, ?_, ?_, ?_, ?_⟩
  · intro config clients net body h
    unfold handleBroadcast
    rw [if_neg h]
    exact ⟨rfl, rfl, rfl, rfl, rfl, rfl, rfl⟩
  · intro kvs path key f h
    exact requiredField_none h
  · intro kvs k f q hk hq
    simp only [topFieldPairs, List.mem_cons, List.mem_singleton, Prod.mk.injEq,
      List.not_mem_nil, or_false] at hk
    rcases hk with h | h | h | h | h
    all_goals obtain ⟨rfl, rfl⟩ := h
    all_goals exact mem_broadcastSchema_of (by tauto)
  · intro kvs q hq
    exact mem_broadcastSchema_of (by tauto)
  · intro kvs cvs k f q hcomp hk hq
    apply mem_broadcast_of_mem_compact hcomp
    simp only [compactFieldPairs, List.mem_cons, List.mem_singleton, Prod.mk.injEq,
      List.not_mem_nil, or_false] at hk
    rcases hk with h | h | h | h | h | h | h
    all_goals obtain ⟨rfl, rfl⟩ := h
    all_goals exact mem_compactSchema_of (by tauto)
  · intro kvs cvs mvs k f q hcomp hmand hk hq
    apply mem_broadcast_of_mem_compact hcomp
    apply mem_compact_of_mem_mandate hmand
    simp only [mandateFieldPairs, List.mem_cons, List.mem_singleton, Prod.mk.injEq,
      List.not_mem_nil, or_false] at hk
    rcases hk with h | h | h | h | h | h | h | h | h
    all_goals obtain ⟨rfl, rfl⟩ := h
    all_goals exact mem_mandateSchema_of (by tauto)
  · intro kvs xvs k f q hctx hk hq
    apply mem_broadcast_of_mem_context hctx
    simp only [contextFieldPairs, List.mem_cons, List.mem_singleton, Prod.mk.injEq,
      List.not_mem_nil, or_false] at hk
    rcases hk with h | h | h | h | h | h | h
    all_goals obtain ⟨rfl, rfl⟩ := h
    all_goals exact mem_contextSchema_of (by tauto)
  · intro kvs xvs k f q hctx hk hq
    apply mem_broadcast_of_mem_context hctx
    simp only [contextOptionalPairs, List.mem_cons, List.mem_singleton, Prod.mk.injEq,
      List.not_mem_nil, or_false] at hk
    rcases hk with h | h | h
    all_goals obtain ⟨rfl, rfl⟩ := h
    all_goals exact mem_contextSchema_of (by tauto)
  · exact mem_refinedString_of_ne_nil
  · exact mem_plainString_of_ne_nil
  · exact mem_sponsorSignature_of_ne_nil
  · exact mem_boundedInt_of_ne_nil

/-- A concrete invalid body: chainId (among others) is missing at the top
level, and compact is present but missing its own fields. -/
def invalidBody : Json := Json.obj [("compact", Json.obj [])]

/-- C2 witness: the invalid body is answered 400 with success = false, error
Invalid payload and no dispatch, and the aggregated issue list names both the
missing top-level chainId and the missing nested compact.arbiter. -/
theorem c2_witness :
    (handleBroadcast cfgN3 clientsM2 netFail2 invalidBody).status = 400 ∧
    (handleBroadcast cfgN3 clientsM2 netFail2 invalidBody).success = false ∧
    (handleBroadcast cfgN3 clientsM2 netFail2 invalidBody).error = some "Invalid payload" ∧
    (handleBroadcast cfgN3 clientsM2 netFail2 invalidBody).httpDeliveries = [] ∧
    (handleBroadcast cfgN3 clientsM2 netFail2 invalidBody).wsDeliveries = [] ∧
    ["chainId"] ∈ BroadcastRequestSchema invalidBody ∧
    ["compact", "arbiter"] ∈ BroadcastRequestSchema invalidBody := by
  have h := c2_invalid_payload_rejected_all_violations_named
  have hA := h.1 cfgN3 clientsM2 netFail2 invalidBody (by decide)
  refine ⟨hA.1, hA.2.1, hA.2.2.1, hA.2.2.2.2.2.1, hA.2.2.2.2.2.2, ?_, ?_⟩
  · apply h.2.2.1 [("compact", Json.obj [])] "chainId" numericOrHexSchema ["chainId"]
      (by simp [topFieldPairs])
    have hn : List.lookup "chainId" [("compact", Json.obj [])] = none := rfl
    rw [requiredField_none hn]
    simp
  · apply h.2.2.2.2.1 [("compact", Json.obj [])] [] "arbiter" addressSchema
      ["compact", "arbiter"] rfl (by simp [compactFieldPairs])
    have hn : List.lookup "arbiter" ([] : List (String × Json)) = none := rfl
    rw [requiredField_none hn]
    simp

/-- C3 witness: the null sponsor signature is accepted via the acceptance
characterization at a concrete input. -/
theorem c3_witness : sponsorSignatureSchema ["sponsorSignature"] Json.null = [] :=
  ((c3_sponsorSignature_acceptance.1 ["sponsorSignature"] Json.null).mpr (Or.inl rfl))

/-- C5 witness: a completed 204 response settles fulfilled, and a completed 404
response is recorded as a rejected attempt, at concrete inputs. -/
theorem c5_witness :
    axiosSettles (HttpResult.response 204) = true ∧
    httpOutcome (HttpResult.response 404) = Settled.rejected :=
  ⟨(c5_amended_status_inspected (HttpResult.response 204)).1.mpr
      ⟨204, rfl, by omega, by omega⟩,
   (c5_amended_status_inspected (HttpResult.response 404)).2.mpr
      (Or.inr ⟨404, rfl, by omega⟩)⟩

/-- C8 witness: an unreadable config file exits before serving, at a concrete
input. -/
theorem c8_witness :
    initializeServer StartupInput.readError = StartupOutcome.exitedBeforeServing :=
  (c8_malformed_config_is_fatal StartupInput.readError).mp (Or.inl rfl)

end Disseminator
